import Mathlib

/-!
Shallow embedding of `src/code/nordvpn.py` (NordVPN client interface of the
Ubuntu-NordVPN-Indicator application).

Python strings are modelled as Lean `String` / `List Char`; Python string
operations that the source relies on (`str.lower`, `str.replace`,
`str.strip`, `in`, `sorted`, list sort) are modelled code-point for
code-point on `List Char`, matching CPython semantics on the ASCII texts the
program manipulates.  The two regular expressions of the source
(`re.search(r"<param>:\s(.*)")`, `re.findall(r"(\S{2,}\s*\S*):\s*(\S+)")`,
`re.findall(r'(\w{2,})+')`) are modelled by explicit backtracking matchers
with the same greedy, leftmost-match semantics.  Python exceptions are
modelled with `Option`/`Except`.
-/

/-! ## Python string primitives -/

/-- The ASCII fragment of Python's regex class `\s` and of `str.strip`'s
default separator set. -/
def isPySpace (c : Char) : Bool :=
  c = ' ' || c = '\t' || c = '\n' || c = '\x0b' || c = '\x0c' || c = '\r'

/-- Python `str.strip()` on a character list. -/
def pyStrip (s : List Char) : List Char :=
  ((s.dropWhile isPySpace).reverse.dropWhile isPySpace).reverse

/-- Python `needle in hay` substring containment. -/
def strContains (hay needle : String) : Bool :=
  hay.data.tails.any (fun t => needle.data.isPrefixOf t)

/-- Python string comparison (lexicographic on code points), on `List Char`. -/
def lexLeAux : List Char → List Char → Bool
  | [], _ => true
  | _ :: _, [] => false
  | a :: as, b :: bs =>
    if a.toNat = b.toNat then lexLeAux as bs
    else decide (a.toNat < b.toNat)

/-- Python `a <= b` on strings. -/
def lexLe (a b : String) : Bool := lexLeAux a.data b.data

/-- Python `sorted` / `list.sort` on strings: a stable sort by `lexLe`. -/
def pySort (l : List String) : List String :=
  List.insertionSort (fun a b => lexLe a b = true) l

/-- Python `str.lower()` (ASCII; maps `A`-`Z` to `a`-`z`). -/
def pyLowerStr (s : String) : String := String.mk (s.data.map Char.toLower)

/-- Python `str.replace(c, '')` for a single-character pattern. -/
def removeChar (c : Char) (s : String) : String :=
  String.mk (s.data.filter (fun a => a != c))

/-- Python `str.replace(c, d)` for single-character pattern and replacement. -/
def replaceChar (c d : Char) (s : String) : String :=
  String.mk (s.data.map (fun a => if a = c then d else a))

/-! ## Enumerations of the source (`ConnectionStatus`, `Settings`) -/

/-- `ConnectionStatus` enum: connection status to the VPN. -/
inductive ConnectionStatus where
  | CONNECTED
  | DISCONNECTED
  | WAITING
  deriving DecidableEq

/-- The `value` of each `ConnectionStatus` member. -/
def ConnectionStatus.value : ConnectionStatus → String
  | .CONNECTED => "Connected"
  | .DISCONNECTED => "Disconnected"
  | .WAITING => "Connecting"

/-- Python `ConnectionStatus(s)`: enum lookup by value; `none` models the
`ValueError` raised on an unknown value. -/
def ConnectionStatus.fromValue (s : String) : Option ConnectionStatus :=
  if s = "Connected" then some .CONNECTED
  else if s = "Disconnected" then some .DISCONNECTED
  else if s = "Connecting" then some .WAITING
  else none

/-- `Settings` enum: settings available for the NordVPN client application.
Each value is the exact match of the setting name. -/
inductive Settings where
  | PROTOCOL
  | KILL_SWITCH
  | CYBER_SEC
  | OBFUSCATE
  | AUTO_CONNECT
  | DNS
  | NOTIFY
  | TECHNOLOGY
  deriving DecidableEq

/-- The `value` of each `Settings` member. -/
def Settings.value : Settings → String
  | .PROTOCOL => "Protocol"
  | .KILL_SWITCH => "Kill Switch"
  | .CYBER_SEC => "CyberSec"
  | .OBFUSCATE => "Obfuscate"
  | .AUTO_CONNECT => "Auto-connect"
  | .DNS => "DNS"
  | .NOTIFY => "Notify"
  | .TECHNOLOGY => "Technology"

/-- Python `Settings(s)`: enum lookup by value; `none` models the `ValueError`
raised on an unknown value. -/
def Settings.fromValue (s : String) : Option Settings :=
  if s = "Protocol" then some .PROTOCOL
  else if s = "Kill Switch" then some .KILL_SWITCH
  else if s = "CyberSec" then some .CYBER_SEC
  else if s = "Obfuscate" then some .OBFUSCATE
  else if s = "Auto-connect" then some .AUTO_CONNECT
  else if s = "DNS" then some .DNS
  else if s = "Notify" then some .NOTIFY
  else if s = "Technology" then some .TECHNOLOGY
  else none

/-! ## `NordVPNStatus`: the status record and its parser -/

/-- The `NordVPNStatus` object: `raw_status`, the `data` dictionary keyed by
`NordVPNStatus.Param` (the `STATUS` entry holds a `ConnectionStatus`, the
others strings), and the `warnings` set.  The Python `set` is modelled as a
duplicate-free list whose membership is its meaning. -/
structure NordVPNStatus where
  raw_status : String
  status : ConnectionStatus
  current_server : String
  country : String
  city : String
  ip : String
  protocol : String
  transfer : String
  uptime : String
  warnings : List String
  deriving DecidableEq

/-- `NordVPNStatus.__init__`. -/
def NordVPNStatus.init : NordVPNStatus :=
  { raw_status := "Unknown"
    status := .WAITING
    current_server := "Unknown"
    country := "Unknown"
    city := "Unknown"
    ip := "Unknown"
    protocol := "Unknown"
    transfer := "Unknown"
    uptime := "Unknown"
    warnings := [] }

/-- One attempt of `re.search(r"<param>:\s(.*)", source)` at the current
position: the literal `param`, a literal `':'`, one `\s` character; returns
the remaining text after the matched `\s`. -/
def matchKeyAt (pat s : List Char) : Option (List Char) :=
  if pat.isPrefixOf s then
    match s.drop pat.length with
    | ':' :: c :: rest => if isPySpace c then some rest else none
    | _ => none
  else none

/-- Leftmost-match scan of `re.search(r"<param>:\s...")`. -/
def searchKey (pat : List Char) : List Char → Option (List Char)
  | [] => none
  | c :: tl =>
    match matchKeyAt pat (c :: tl) with
    | some r => some r
    | none => searchKey pat tl

/-- `NordVPNStatus._parse_param` without the `throw` flag:
`re.search(r"<param>:\s(.*)", source)` followed by `.group(1).strip()`;
`none` models the no-match case (the `throw=True` exception, or the
`"Unknown"` fallback, is chosen by the caller). -/
def parse_param (param source : String) : Option String :=
  (searchKey param.data source.data).map
    (fun r => String.mk (pyStrip (r.takeWhile (fun c => c != '\n'))))

/-- `_parse_param` with `throw=False`: returns `"Unknown"` when the parameter
is not found. -/
def parseOr (param source : String) : String :=
  (parse_param param source).getD "Unknown"

/-- `NordVPNStatus.update(raw_status)`.  The `for param in Param` loop visits
`STATUS` first (enum definition order); the surrounding `try` can only be
left by the `STATUS` iteration (missing label with `throw=True`, or the
`ConnectionStatus(status)` `ValueError`), in which case no later field has
been written; afterwards `_parse_param(..., throw=False)` never raises, so
the loop is unrolled into the two failing cases plus the full pass. -/
def NordVPNStatus.update (self : NordVPNStatus) (raw_status : String) : NordVPNStatus :=
  let r1 : NordVPNStatus := { self with raw_status := raw_status }
  if 0 < r1.warnings.length then
    { r1 with
      raw_status := String.intercalate "\n\r" (raw_status :: pySort r1.warnings)
      status := ConnectionStatus.WAITING }
  else
    match parse_param "Status" raw_status with
    | none => { r1 with status := ConnectionStatus.WAITING }
    | some v =>
      match ConnectionStatus.fromValue v with
      | none => { r1 with status := ConnectionStatus.WAITING }
      | some cs =>
        { r1 with
          status := cs
          current_server := parseOr "Current server" raw_status
          country := parseOr "Country" raw_status
          city := parseOr "City" raw_status
          ip := parseOr "Your new IP" raw_status
          protocol := parseOr "Current protocol" raw_status
          transfer := parseOr "Transfer" raw_status
          uptime := parseOr "Uptime" raw_status }

/-- `NordVPNStatus.add_warning(message)`: `set.add`. -/
def NordVPNStatus.add_warning (self : NordVPNStatus) (message : String) : NordVPNStatus :=
  { self with
    warnings := if message ∈ self.warnings then self.warnings else self.warnings ++ [message] }

/-- `NordVPNStatus.clear_warnings()`: `set.clear`. -/
def NordVPNStatus.clear_warnings (self : NordVPNStatus) : NordVPNStatus :=
  { self with warnings := [] }

/-! ## `NordVPN._parse_words`: the list parser -/

/-- Python regex class `\w` (ASCII fragment). -/
def isWordChar (c : Char) : Bool := c.isAlphanum || c = '_'

/-- Maximal `\w` runs of a text, in text order (`acc` holds the reversed run
in progress).  `re.findall(r'(\w{2,})+', raw)` returns exactly the maximal
runs of length at least 2: the greedy inner `\w{2,}` swallows a whole run in
one iteration of the outer `+`, whose last capture is the whole run. -/
def wordRunsAux (acc : List Char) : List Char → List (List Char)
  | [] => if acc.isEmpty then [] else [acc.reverse]
  | c :: rest =>
    if isWordChar c then wordRunsAux (c :: acc) rest
    else if acc.isEmpty then wordRunsAux [] rest
    else acc.reverse :: wordRunsAux [] rest

/-- Maximal `\w` runs of a text, in text order. -/
def wordRuns (s : List Char) : List (List Char) := wordRunsAux [] s

/-- The tokens `re.findall(r'(\w{2,})+', raw)` extracts, in text order. -/
def rawTokens (raw : String) : List String :=
  ((wordRuns raw.data).filter (fun t => 2 ≤ t.length)).map String.mk

/-- `NordVPN._parse_words(raw)`: `None` yields `[]`; otherwise the extracted
tokens are sorted and `'_'` is replaced by `' '` in each. -/
def parse_words (raw : Option String) : List String :=
  match raw with
  | none => []
  | some raw => (pySort (rawTokens raw)).map (replaceChar '_' ' ')

/-! ## `NordVPN._parse_settings`: the settings parser -/

/-- `[hi, hi-1, ..., lo]`: the order in which a greedy quantifier tries
repetition counts. -/
def descRange (lo hi : Nat) : List Nat :=
  (List.range (hi + 1 - lo)).map (fun k => hi - k)

/-- Length of the maximal `\S` run at the head of `s`. -/
def nonSpaceLen (s : List Char) : Nat := (s.takeWhile (fun c => !isPySpace c)).length

/-- Length of the maximal `\s` run at the head of `s`. -/
def spaceLen (s : List Char) : Nat := (s.takeWhile isPySpace).length

/-- The `:\s*(\S+)` tail of the settings regex: greedy `\s*` then a nonempty
`\S+` capture; returns the captured value and the rest of the text. -/
def tryValue (s : List Char) : Option (List Char × List Char) :=
  let s1 := s.dropWhile isPySpace
  let v := s1.takeWhile (fun c => !isPySpace c)
  if v.isEmpty then none else some (v, s1.drop v.length)

/-- One anchored attempt of `(\S{2,}\s*\S*):\s*(\S+)` at the head of `s`,
with the backtracking order of the regex engine: longest `\S{2,}` first,
then longest `\s*`, then longest `\S*`; the first combination followed by a
literal `':'` and a valid `:\s*(\S+)` tail wins.  Returns key capture, value
capture, and the rest of the text after the match. -/
def matchPairAt (s : List Char) : Option (String × String × List Char) :=
  (descRange 2 (nonSpaceLen s)).findSome? (fun a =>
    let s1 := s.drop a
    (descRange 0 (spaceLen s1)).findSome? (fun b =>
      let s2 := s1.drop b
      (descRange 0 (nonSpaceLen s2)).findSome? (fun c =>
        match s2.drop c with
        | ':' :: s4 =>
          match tryValue s4 with
          | some (v, rest) => some (String.mk (s.take (a + b + c)), String.mk v, rest)
          | none => none
        | _ => none)))

/-- `re.findall` scan for `(\S{2,}\s*\S*):\s*(\S+)`: leftmost matches,
resuming after each match.  Every recursive call strictly shortens the text,
so fuel equal to the text length never runs out. -/
def findallKVAux : Nat → List Char → List (String × String)
  | 0, _ => []
  | _, [] => []
  | fuel + 1, c :: tl =>
    match matchPairAt (c :: tl) with
    | some (k, v, rest) => (k, v) :: findallKVAux fuel rest
    | none => findallKVAux fuel tl

/-- `re.findall(r"(\S{2,}\s*\S*):\s*(\S+)", raw)`. -/
def findallKV (s : List Char) : List (String × String) := findallKVAux s.length s

/-- The two special value remappings of `_parse_settings`, applied in source
order (PROTOCOL first, then TECHNOLOGY, each on the current value). -/
def coerceSpecial (key value : String) : String :=
  let v1 := if key = Settings.PROTOCOL.value then
      (if value = "TCP" then "enabled" else "disabled") else value
  if key = Settings.TECHNOLOGY.value then
    (if v1 = "NordLynx" then "enabled" else "disabled") else v1

/-- Python `dict` assignment `d[k] = v`: overwrite in place or append. -/
def dictInsert (d : List (Settings × Bool)) (k : Settings) (v : Bool) :
    List (Settings × Bool) :=
  if d.any (fun p => p.1 == k) then
    d.map (fun p => if p.1 = k then (k, v) else p)
  else d ++ [(k, v)]

/-- The `for key, value in match` loop of `_parse_settings`: remap special
values, then `settings[Settings(key)] = value == 'enabled'`.  `Settings(key)`
on an unrecognized key raises `ValueError`, modelled as `Except.error key`,
which aborts the whole call (there is no handler in the source). -/
def parseSettingsLoop :
    List (Settings × Bool) → List (String × String) → Except String (List (Settings × Bool))
  | acc, [] => .ok acc
  | acc, (k, v) :: rest =>
    let v1 := coerceSpecial k v
    match Settings.fromValue k with
    | none => .error k
    | some s => parseSettingsLoop (dictInsert acc s (v1 == "enabled")) rest

/-- `NordVPN._parse_settings(raw)`. -/
def parse_settings (raw : String) : Except String (List (Settings × Bool)) :=
  parseSettingsLoop [] (findallKV raw.data)

/-! ## `NordVPN`: warning detection, connect/disconnect, set_settings -/

/-- `NordVPN.UPDATE_WARNING` trigger phrase. -/
def UPDATE_WARNING : String :=
  "A new version of NordVPN is available! Please update the application."

/-- `NordVPN.LOGIN_WARNING` trigger phrase. -/
def LOGIN_WARNING : String := "Please enter your login details."

/-- The warning message registered for an update-available output. -/
def updateWarningMessage : String := "Warning: new version of the nordvpn client available"

/-- The warning message registered for a login-required output. -/
def loginWarningMessage : String := "Warning: Please login to NordVPN"

/-- `NordVPN._output_has_warnings(output)`: substring checks in priority
order; on a match, registers the corresponding message in the status
object's warning set and reports `true`. -/
def output_has_warnings (st : NordVPNStatus) (output : String) : Bool × NordVPNStatus :=
  if strContains output UPDATE_WARNING then (true, st.add_warning updateWarningMessage)
  else if strContains output LOGIN_WARNING then (true, st.add_warning loginWarningMessage)
  else (false, st)

/-- The shared tail of every connect/disconnect variant:
`if not self._output_has_warnings(output): self.status.clear_warnings()`.
`output` is the text the external command produced. -/
def connectWarningStep (st : NordVPNStatus) (output : String) : NordVPNStatus :=
  let res := output_has_warnings st output
  if res.1 then res.2 else res.2.clear_warnings

/-- `NordVPN.connect`, given the output of `nordvpn connect`. -/
def connect (st : NordVPNStatus) (output : String) : NordVPNStatus :=
  connectWarningStep st output

/-- `NordVPN.disconnect`, given the output of `nordvpn disconnect`. -/
def disconnect (st : NordVPNStatus) (output : String) : NordVPNStatus :=
  connectWarningStep st output

/-- `NordVPN.connect_to_country`, given the output of the connect command
composed for `country`. -/
def connect_to_country (st : NordVPNStatus) (country : String) (output : String) :
    NordVPNStatus :=
  connectWarningStep st output

/-- `NordVPN.connect_to_city`, given the output of the connect command
composed for `city`. -/
def connect_to_city (st : NordVPNStatus) (city : String) (output : String) :
    NordVPNStatus :=
  connectWarningStep st output

/-- `NordVPN.connect_to_group`, given the output of the connect command
composed for `group`. -/
def connect_to_group (st : NordVPNStatus) (group : String) (output : String) :
    NordVPNStatus :=
  connectWarningStep st output

/-! ## `NordVPN.set_settings`: the settings encoder -/

/-- A Python value as stored in the `set_settings` dictionary: the indicator
passes booleans for on/off settings and strings for Auto-connect targets. -/
inductive PyVal where
  | bool (b : Bool)
  | str (s : String)
  deriving DecidableEq

/-- Python `str(v)`. -/
def pyStr : PyVal → String
  | .bool true => "True"
  | .bool false => "False"
  | .str s => s

/-- Python `v.lower()`: only strings have `.lower`; `none` models the
`AttributeError` raised on a non-string. -/
def pyLower : PyVal → Option String
  | .str s => some (pyLowerStr s)
  | .bool _ => none

/-- `key.value.replace(' ', '').replace('-', '').lower()`. -/
def cleanLabel (key : Settings) : String :=
  pyLowerStr (removeChar '-' (removeChar ' ' key.value))

/-- One iteration of the `set_settings` loop: the command string passed to
`_run_command` for the entry `(key, value)`; `none` models the
`AttributeError` of `value.lower()` on a non-string Auto-connect value. -/
def settingCommand (key : Settings) (value : PyVal) : Option String :=
  if key = Settings.AUTO_CONNECT then
    if value = PyVal.str "Off" then
      some ("nordvpn set " ++ cleanLabel key ++ " " ++ pyLowerStr (pyStr (PyVal.bool false)))
    else if value = PyVal.str "Automatic" then
      some ("nordvpn set " ++ cleanLabel key ++ " " ++ pyLowerStr (pyStr (PyVal.bool true)))
    else
      match pyLower value with
      | some lv =>
        some ("nordvpn set " ++ cleanLabel key ++ " " ++
          pyLowerStr (pyStr (PyVal.str ("on " ++ lv))))
      | none => none
  else
    some ("nordvpn set " ++ cleanLabel key ++ " " ++ pyLowerStr (pyStr value))

/-- `NordVPN.set_settings(settings)`: one external command per entry, in
dictionary order. -/
def set_settings (settings : List (Settings × PyVal)) : List (Option String) :=
  settings.map (fun p => settingCommand p.1 p.2)

/-- Modelled from the spec: the external client binary (not part of this
repository) renders each boolean setting state in its `nordvpn settings`
listing as a `<Label>: <value>` line, where the value is `enabled`/`disabled`
for generic boolean settings, the protocol name (`TCP` when the TCP state is
on, `UDP` otherwise) for Protocol, and the technology name (`NordLynx` when
on, `OpenVPN` otherwise) for Technology. -/
def reflectSetting (k : Settings) (b : Bool) : String :=
  match k with
  | .PROTOCOL => "Protocol: " ++ (if b then "TCP" else "UDP")
  | .TECHNOLOGY => "Technology: " ++ (if b then "NordLynx" else "OpenVPN")
  | _ => k.value ++ ": " ++ (if b then "enabled" else "disabled")

/-! ## Helper lemmas -/

theorem lexLeAux_cons (x y : Char) (xs ys : List Char) :
    lexLeAux (x :: xs) (y :: ys) =
      if x.toNat = y.toNat then lexLeAux xs ys else decide (x.toNat < y.toNat) := rfl

theorem lexLeAux_total : ∀ a b, lexLeAux a b = true ∨ lexLeAux b a = true := by
  intro a
  induction a with
  | nil => intro b; left; rfl
  | cons x xs ih =>
    intro b
    cases b with
    | nil => right; rfl
    | cons y ys =>
      rw [lexLeAux_cons, lexLeAux_cons]
      by_cases h : x.toNat = y.toNat
      · rcases ih ys with h1 | h1
        · left; rw [if_pos h]; exact h1
        · right; rw [if_pos h.symm]; exact h1
      · rcases Nat.lt_or_ge x.toNat y.toNat with h2 | h2
        · left; rw [if_neg h]; simp only [decide_eq_true_eq]; omega
        · right
          have h3 : ¬ y.toNat = x.toNat := fun hh => h hh.symm
          rw [if_neg h3]; simp only [decide_eq_true_eq]; omega

theorem lexLeAux_trans : ∀ a b c, lexLeAux a b = true → lexLeAux b c = true →
    lexLeAux a c = true := by
  intro a
  induction a with
  | nil => intro b c _ _; rfl
  | cons x xs ih =>
    intro b c hab hbc
    cases b with
    | nil => exact absurd hab (by simp [lexLeAux])
    | cons y ys =>
      cases c with
      | nil => exact absurd hbc (by simp [lexLeAux])
      | cons z zs =>
        rw [lexLeAux_cons] at hab hbc ⊢
        by_cases hxy : x.toNat = y.toNat
        · rw [if_pos hxy] at hab
          by_cases hyz : y.toNat = z.toNat
          · rw [if_pos hyz] at hbc
            rw [if_pos (hxy.trans hyz)]
            exact ih ys zs hab hbc
          · rw [if_neg hyz] at hbc
            simp only [decide_eq_true_eq] at hbc
            have hne : ¬ x.toNat = z.toNat := by omega
            rw [if_neg hne]; simp only [decide_eq_true_eq]; omega
        · rw [if_neg hxy] at hab
          simp only [decide_eq_true_eq] at hab
          by_cases hyz : y.toNat = z.toNat
          · have hne : ¬ x.toNat = z.toNat := by omega
            rw [if_neg hne]; simp only [decide_eq_true_eq]; omega
          · rw [if_neg hyz] at hbc
            simp only [decide_eq_true_eq] at hbc
            have hne : ¬ x.toNat = z.toNat := by omega
            rw [if_neg hne]; simp only [decide_eq_true_eq]; omega

instance : IsTotal String (fun a b => lexLe a b = true) :=
  ⟨fun a b => lexLeAux_total a.data b.data⟩

instance : IsTrans String (fun a b => lexLe a b = true) :=
  ⟨fun a b c => lexLeAux_trans a.data b.data c.data⟩

theorem pySort_perm (l : List String) : List.Perm (pySort l) l :=
  List.perm_insertionSort _ l

theorem pySort_sorted (l : List String) :
    List.Sorted (fun a b => lexLe a b = true) (pySort l) :=
  List.sorted_insertionSort _ l

theorem toNat_ofNat_valid (n : Nat) (h : n < 55296) : (Char.ofNat n).toNat = n := by
  unfold Char.ofNat
  rw [dif_pos (Or.inl h)]
  rfl

theorem toLower_idem (c : Char) : c.toLower.toLower = c.toLower := by
  unfold Char.toLower
  by_cases h : c.toNat ≥ 65 ∧ c.toNat ≤ 90
  · rw [if_pos h]
    have h1 : (Char.ofNat (c.toNat + 32)).toNat = c.toNat + 32 :=
      toNat_ofNat_valid _ (by omega)
    rw [if_neg]
    rw [h1]
    omega
  · rw [if_neg h, if_neg h]

theorem pyLowerStr_idem (s : String) : pyLowerStr (pyLowerStr s) = pyLowerStr s := by
  show String.mk ((s.data.map Char.toLower).map Char.toLower) = String.mk (s.data.map Char.toLower)
  rw [List.map_map]
  have h : Char.toLower ∘ Char.toLower = Char.toLower := funext toLower_idem
  rw [h]

theorem pyLowerStr_append (a b : String) :
    pyLowerStr (a ++ b) = pyLowerStr a ++ pyLowerStr b := by
  show String.mk ((a.data ++ b.data).map Char.toLower) = _
  simp [pyLowerStr]
  rfl

theorem intercalate_pair (s a b : String) : String.intercalate s [a, b] = a ++ s ++ b := by
  simp [String.intercalate, String.intercalate.go]

/-! ## Claims -/

/-- C1: with an empty warning set, `update()` sets the status field to the
`ConnectionStatus` member mapped from the text's `Status: <v>` line when
`<v>` is `Connected`, `Disconnected` or `Connecting`; if the `Status` label
is absent, or `<v>` is any other text, the status field is forced to
`WAITING` and every other named field (and the warning set) retains the
value it had before the call — no partial update from this pass. -/
theorem C1_update_parses_mandatory_status (r : NordVPNStatus) (raw : String)
    (hw : r.warnings = []) :
    (parse_param "Status" raw = none →
      r.update raw = { r with raw_status := raw, status := ConnectionStatus.WAITING }) ∧
    (∀ v, parse_param "Status" raw = some v →
      ((v = "Connected" → (r.update raw).status = ConnectionStatus.CONNECTED) ∧
       (v = "Disconnected" → (r.update raw).status = ConnectionStatus.DISCONNECTED) ∧
       (v = "Connecting" → (r.update raw).status = ConnectionStatus.WAITING) ∧
       (v ≠ "Connected" → v ≠ "Disconnected" → v ≠ "Connecting" →
         r.update raw = { r with raw_status := raw, status := ConnectionStatus.WAITING }))) := by
  constructor
  · intro hp
    simp [NordVPNStatus.update, hw, hp]
  · intro v hp
    refine ⟨?_, ?_, ?_, ?_⟩
    · intro hv
      subst hv
      simp [NordVPNStatus.update, hw, hp, ConnectionStatus.fromValue]
    · intro hv
      subst hv
      simp [NordVPNStatus.update, hw, hp, ConnectionStatus.fromValue]
    · intro hv
      subst hv
      simp [NordVPNStatus.update, hw, hp, ConnectionStatus.fromValue]
    · intro h1 h2 h3
      simp [NordVPNStatus.update, hw, hp, ConnectionStatus.fromValue, h1, h2, h3]

/-- Witness for C1 at a concrete input. -/
theorem C1_update_parses_mandatory_status_witness :
    (NordVPNStatus.init.update "Status: Connected").status = ConnectionStatus.CONNECTED :=
  ((C1_update_parses_mandatory_status NordVPNStatus.init "Status: Connected" rfl).2
    "Connected" (by decide)).1 rfl

/-- C2: if the warning set is non-empty when `update()` is called, the status
field becomes `WAITING`, the raw text blob becomes the original text with
the distinct warnings appended, joined as additional lines in
lexicographically sorted order, and no other field changes (field-by-field
parsing is skipped). -/
theorem C2_update_with_warnings (r : NordVPNStatus) (raw : String)
    (hw : r.warnings ≠ []) :
    r.update raw = { r with
        raw_status := String.intercalate "\n\r" (raw :: pySort r.warnings)
        status := ConnectionStatus.WAITING } ∧
    List.Perm (pySort r.warnings) r.warnings ∧
    List.Sorted (fun a b => lexLe a b = true) (pySort r.warnings) := by
  refine ⟨?_, pySort_perm r.warnings, pySort_sorted r.warnings⟩
  have hlen : 0 < r.warnings.length := List.length_pos.mpr hw
  simp [NordVPNStatus.update, hlen]

/-- Witness for C2 at a concrete input. -/
theorem C2_update_with_warnings_witness :
    ({ NordVPNStatus.init with warnings := ["b", "a"] }.update "x").raw_status =
      "x\n\ra\n\rb" := by
  have h := (C2_update_with_warnings
    { NordVPNStatus.init with warnings := ["b", "a"] } "x" (by decide)).1
  rw [h]
  decide

/-- C3 counterexample: a raw status text that contains the update-available
trigger phrase, applied by `update()` to a record with an empty warning set
(the freshly initialized record), yields status `CONNECTED` — not `WAITING` —
and a `raw_status` equal to the text with no warning line appended:
`update()` itself never inspects the text for trigger phrases (only
`_output_has_warnings`, called by connect/disconnect, does). -/
theorem C3_counterexample :
    strContains (UPDATE_WARNING ++ "\nStatus: Connected") UPDATE_WARNING = true ∧
    (NordVPNStatus.init.update (UPDATE_WARNING ++ "\nStatus: Connected")).status =
      ConnectionStatus.CONNECTED ∧
    (NordVPNStatus.init.update (UPDATE_WARNING ++ "\nStatus: Connected")).raw_status =
      UPDATE_WARNING ++ "\nStatus: Connected" := by
  refine ⟨by decide, by decide, by decide⟩

/-- C3 (amended): for every raw status text containing the update-available
trigger phrase, if the warning detector (`_output_has_warnings`) is first
run on that text starting from a record whose warning set is empty, and
`update()` is then called with that text, the resulting record's status is
`WAITING` and its `raw_status` is the original text plus exactly one
appended warning line. -/
theorem C3_amended_detector_then_update (r : NordVPNStatus) (raw : String)
    (hw : r.warnings = []) (h : strContains raw UPDATE_WARNING = true) :
    ((output_has_warnings r raw).2.update raw).status = ConnectionStatus.WAITING ∧
    ((output_has_warnings r raw).2.update raw).raw_status =
      raw ++ "\n\r" ++ updateWarningMessage := by
  have h2 : (output_has_warnings r raw).2 = r.add_warning updateWarningMessage := by
    simp [output_has_warnings, h]
  have h3 : (r.add_warning updateWarningMessage).warnings = [updateWarningMessage] := by
    simp [NordVPNStatus.add_warning, hw]
  have h4 : pySort [updateWarningMessage] = [updateWarningMessage] := rfl
  rw [h2]
  constructor
  · simp [NordVPNStatus.update, h3]
  · simp [NordVPNStatus.update, h3, h4, intercalate_pair]

/-- Witness for the amended C3 at a concrete input. -/
theorem C3_amended_detector_then_update_witness :
    ((output_has_warnings NordVPNStatus.init UPDATE_WARNING).2.update UPDATE_WARNING).raw_status =
      UPDATE_WARNING ++ "\n\r" ++ updateWarningMessage :=
  (C3_amended_detector_then_update NordVPNStatus.init UPDATE_WARNING rfl (by decide)).2

/-- C10: `update()` never touches the warning set: for every prior record
state and raw text, the warnings after the call equal the warnings before
it (the set is modified only by `add_warning` and `clear_warnings`). -/
theorem C10_update_preserves_warnings (r : NordVPNStatus) (raw : String) :
    (r.update raw).warnings = r.warnings := by
  unfold NordVPNStatus.update
  by_cases h : 0 < r.warnings.length
  · simp [h]
  · simp only [h]
    cases parse_param "Status" raw with
    | none => simp
    | some v =>
      dsimp only
      cases hf : ConnectionStatus.fromValue v <;> simp [hf]

/-- If any extracted pair's key is not a recognized setting label, the
`_parse_settings` loop raises (reaches `Settings(key)` with an unknown
value, a `ValueError` with no handler in the source). -/
theorem parseSettingsLoop_error_of_unrecognized :
    ∀ (pairs : List (String × String)) (acc : List (Settings × Bool)) (k v : String),
      (k, v) ∈ pairs → Settings.fromValue k = none →
      ∃ e, parseSettingsLoop acc pairs = Except.error e := by
  intro pairs
  induction pairs with
  | nil => intro acc k v h; exact absurd h (List.not_mem_nil _)
  | cons p rest ih =>
    intro acc k v h hk
    obtain ⟨k0, v0⟩ := p
    rcases List.mem_cons.mp h with h1 | h1
    · obtain ⟨hk0, _⟩ := Prod.mk.injEq .. ▸ h1
      subst hk0
      exact ⟨k, by simp [parseSettingsLoop, hk]⟩
    · cases hfv : Settings.fromValue k0 with
      | none => exact ⟨k0, by simp [parseSettingsLoop, hfv]⟩
      | some s =>
        obtain ⟨e, he⟩ :=
          ih (dictInsert acc s (coerceSpecial k0 v0 == "enabled")) k v h1 hk
        refine ⟨e, ?_⟩
        simpa [parseSettingsLoop, hfv] using he

/-- C4 counterexample: on the settings text `"Firewall: enabled"` — whose one
`<label>: <value>` pair has the unrecognized label `Firewall` (length ≥ 2) —
the parser does not silently drop the pair and return the mapping of
recognized pairs (which would be `Except.ok []`): it raises the `ValueError`
of `Settings("Firewall")`, modelled as `Except.error`. -/
theorem C4_counterexample :
    parse_settings "Firewall: enabled" = Except.error "Firewall" := rfl

/-- C4 (amended): for every settings text containing a `<label>: <value>`
pair (as extracted by the settings regex, so with label length ≥ 2) whose
label is not a recognized setting name, the settings parser raises an
uncaught `ValueError` instead of returning a mapping: the recognized pairs
are not returned. -/
theorem C4_amended_unrecognized_label_raises (raw k v : String)
    (hmem : (k, v) ∈ findallKV raw.data) (hk : Settings.fromValue k = none) :
    ∃ e, parse_settings raw = Except.error e :=
  parseSettingsLoop_error_of_unrecognized (findallKV raw.data) [] k v hmem hk

/-- Witness for the amended C4 at a concrete input. -/
theorem C4_amended_unrecognized_label_raises_witness :
    ∃ e, parse_settings "Firewall: enabled" = Except.error e :=
  C4_amended_unrecognized_label_raises "Firewall: enabled" "Firewall" "enabled"
    (by decide) (by decide)

/-- `Settings(k)` succeeding means `k` is the member's exact label. -/
theorem Settings.fromValue_some_eq (k : String) (s : Settings)
    (h : Settings.fromValue k = some s) : k = s.value := by
  unfold Settings.fromValue at h
  split_ifs at h
  all_goals try (injection h with hv; subst hv; simp only [Settings.value]; assumption)

/-- C5: the settings parser maps a Protocol value of literally `TCP` to
`true` and any other protocol value to `false`, a Technology value of
literally `NordLynx` to `true` and any other value to `false`, and for every
other recognized setting maps the literal value `enabled` to `true` and
anything else to `false`; in particular the text
`"Protocol: TCP\nTechnology: NordLynx\nKill Switch: enabled"` parses to
`{PROTOCOL: true, TECHNOLOGY: true, KILL_SWITCH: true}`. -/
theorem C5_settings_value_coercion :
    parse_settings "Protocol: TCP\nTechnology: NordLynx\nKill Switch: enabled" =
      Except.ok [(Settings.PROTOCOL, true), (Settings.TECHNOLOGY, true),
        (Settings.KILL_SWITCH, true)] ∧
    (∀ v, parseSettingsLoop [] [("Protocol", v)] =
      Except.ok [(Settings.PROTOCOL, v == "TCP")]) ∧
    (∀ v, parseSettingsLoop [] [("Technology", v)] =
      Except.ok [(Settings.TECHNOLOGY, v == "NordLynx")]) ∧
    (∀ k v (s : Settings), Settings.fromValue k = some s → s ≠ Settings.PROTOCOL →
      s ≠ Settings.TECHNOLOGY →
      parseSettingsLoop [] [(k, v)] = Except.ok [(s, v == "enabled")]) := by
  refine ⟨rfl, ?_, ?_, ?_⟩
  · intro v
    by_cases hv : v = "TCP"
    · subst hv; rfl
    · simp [parseSettingsLoop, coerceSpecial, Settings.value, Settings.fromValue,
        dictInsert, hv]
  · intro v
    by_cases hv : v = "NordLynx"
    · subst hv; rfl
    · simp [parseSettingsLoop, coerceSpecial, Settings.value, Settings.fromValue,
        dictInsert, hv]
  · intro k v s h hp ht
    have hk := Settings.fromValue_some_eq k s h
    subst hk
    cases s
    all_goals first
      | exact absurd rfl hp
      | exact absurd rfl ht
      | rfl

/-- Witness for C5's general clause at a concrete input. -/
theorem C5_settings_value_coercion_witness :
    parseSettingsLoop [] [("DNS", "enabled")] = Except.ok [(Settings.DNS, true)] :=
  C5_settings_value_coercion.2.2.2 "DNS" "enabled" Settings.DNS (by decide)
    (by decide) (by decide)

/-- Reassociation of the command text around the `on` target. -/
theorem append_space_on (A X : String) :
    A ++ " " ++ ("on " ++ X) = A ++ " on " ++ X := by
  apply String.ext
  show (A.data ++ " ".data) ++ ("on ".data ++ X.data) = (A.data ++ " on ".data) ++ X.data
  simp [List.append_assoc]

/-- C6: `set_settings` issues exactly one external command per entry, in
order; the command for `(key, value)` is `nordvpn set <label> <val>` where
`<label>` is the setting's exact label with internal spaces and hyphens
removed and lower-cased (`cleanLabel`); for the auto-connect key, value
`Off` yields `<val> = false`, value `Automatic` yields `true`, and any other
value `c` yields `on <lower-cased c>`; for all other keys `<val>` is the
value's lower-cased string form. -/
theorem C6_set_settings_commands :
    (∀ (entries : List (Settings × PyVal)) (i : Nat),
      (set_settings entries)[i]? = (entries[i]?).map (fun p => settingCommand p.1 p.2)) ∧
    cleanLabel Settings.AUTO_CONNECT = "autoconnect" ∧
    cleanLabel Settings.KILL_SWITCH = "killswitch" ∧
    settingCommand Settings.AUTO_CONNECT (PyVal.str "Off") =
      some ("nordvpn set " ++ cleanLabel Settings.AUTO_CONNECT ++ " " ++ "false") ∧
    settingCommand Settings.AUTO_CONNECT (PyVal.str "Automatic") =
      some ("nordvpn set " ++ cleanLabel Settings.AUTO_CONNECT ++ " " ++ "true") ∧
    (∀ c : String, c ≠ "Off" → c ≠ "Automatic" →
      settingCommand Settings.AUTO_CONNECT (PyVal.str c) =
        some ("nordvpn set " ++ cleanLabel Settings.AUTO_CONNECT ++ " on " ++ pyLowerStr c)) ∧
    (∀ (key : Settings) (v : PyVal), key ≠ Settings.AUTO_CONNECT →
      settingCommand key v =
        some ("nordvpn set " ++ cleanLabel key ++ " " ++ pyLowerStr (pyStr v))) := by
  refine ⟨?_, rfl, rfl, rfl, rfl, ?_, ?_⟩
  · intro entries i
    simp [set_settings]
  · intro c h1 h2
    have hne1 : ¬ (PyVal.str c = PyVal.str "Off") := by simp [h1]
    have hne2 : ¬ (PyVal.str c = PyVal.str "Automatic") := by simp [h2]
    have e1 : pyLowerStr ("on " ++ pyLowerStr c) = "on " ++ pyLowerStr c := by
      rw [pyLowerStr_append, pyLowerStr_idem]
      rfl
    simp only [settingCommand, hne1, hne2, if_true, if_false, ite_true, ite_false,
      if_pos rfl, if_neg hne1, if_neg hne2, pyLower, pyStr]
    rw [e1, append_space_on]
  · intro key v hk
    simp only [settingCommand, if_neg hk]

/-- Witness for C6's auto-connect target clause at a concrete input. -/
theorem C6_set_settings_commands_witness :
    settingCommand Settings.AUTO_CONNECT (PyVal.str "Italy") =
      some ("nordvpn set " ++ cleanLabel Settings.AUTO_CONNECT ++ " on " ++ pyLowerStr "Italy") :=
  C6_set_settings_commands.2.2.2.2.2.1 "Italy" (by decide) (by decide)

/-- C7: for every input text, the list parser returns the maximal
alphanumeric/underscore tokens of length ≥ 2, sorted lexicographically
(before underscore replacement, as the source sorts first), with
underscores then replaced by spaces in each token, and without
de-duplication; the example `"au_country nz_country au_country"` parses to
`["au country", "au country", "nz country"]`; empty or absent input yields
the empty list rather than a failure. -/
theorem C7_parse_words_tokens :
    parse_words none = [] ∧
    parse_words (some "") = [] ∧
    parse_words (some "au_country nz_country au_country") =
      ["au country", "au country", "nz country"] ∧
    (∀ s : String,
      List.Perm (pySort (rawTokens s)) (rawTokens s) ∧
      List.Sorted (fun a b => lexLe a b = true) (pySort (rawTokens s)) ∧
      parse_words (some s) = (pySort (rawTokens s)).map (replaceChar '_' ' ')) := by
  refine ⟨rfl, rfl, by decide, ?_⟩
  intro s
  exact ⟨pySort_perm (rawTokens s), pySort_sorted (rawTokens s), rfl⟩

/-- C8: after any of `connect`, `connect_to_country`, `connect_to_city`,
`connect_to_group` or `disconnect` (which all share one warning policy): if
the command's output contains no warning trigger substring, the warning set
is cleared to empty; if it contains a trigger, exactly one corresponding
warning message is added (idempotently — the set semantics of `add_warning`
do not multiply duplicate entries) and all previously present warnings are
retained. -/
theorem C8_connect_clears_or_adds_warnings (st : NordVPNStatus) (out : String) :
    (∀ c, connect_to_country st c out = connect st out ∧
      connect_to_city st c out = connect st out ∧
      connect_to_group st c out = connect st out) ∧
    disconnect st out = connect st out ∧
    (strContains out UPDATE_WARNING = false → strContains out LOGIN_WARNING = false →
      (connect st out).warnings = []) ∧
    (strContains out UPDATE_WARNING = true →
      (connect st out).warnings = (st.add_warning updateWarningMessage).warnings) ∧
    (strContains out UPDATE_WARNING = false → strContains out LOGIN_WARNING = true →
      (connect st out).warnings = (st.add_warning loginWarningMessage).warnings) ∧
    (∀ m, m ∈ (st.add_warning m).warnings ∧
      (∀ x, x ∈ (st.add_warning m).warnings ↔ x ∈ st.warnings ∨ x = m) ∧
      (m ∈ st.warnings → st.add_warning m = st)) := by
  refine ⟨fun c => ⟨rfl, rfl, rfl⟩, rfl, ?_, ?_, ?_, ?_⟩
  · intro h1 h2
    simp [connect, connectWarningStep, output_has_warnings, h1, h2,
      NordVPNStatus.clear_warnings]
  · intro h1
    simp [connect, connectWarningStep, output_has_warnings, h1]
  · intro h1 h2
    simp [connect, connectWarningStep, output_has_warnings, h1, h2]
  · intro m
    refine ⟨?_, ?_, ?_⟩
    · by_cases hm : m ∈ st.warnings <;> simp [NordVPNStatus.add_warning, hm]
    · intro x
      by_cases hm : m ∈ st.warnings
      · simp [NordVPNStatus.add_warning, hm]
        intro hx
        subst hx
        exact hm
      · simp [NordVPNStatus.add_warning, hm, List.mem_append]
    · intro hm
      simp [NordVPNStatus.add_warning, hm]

/-- Witness for C8 at a concrete input. -/
theorem C8_connect_clears_or_adds_warnings_witness :
    (connect NordVPNStatus.init "You are connected!").warnings = [] :=
  (C8_connect_clears_or_adds_warnings NordVPNStatus.init "You are connected!").2.2.1
    (by decide) (by decide)

/-- C9: round-trip for boolean setting keys (every key except the
auto-connect target): encoding a change of key `k` to boolean `b` issues the
command `nordvpn set <label> true|false`, and parsing a settings text line
that reflects the resulting state (as the external binary renders it, per
the spec's settings text format) yields `b` again for `k`. -/
theorem C9_settings_roundtrip (k : Settings) (b : Bool)
    (hk : k ≠ Settings.AUTO_CONNECT) :
    set_settings [(k, PyVal.bool b)] =
      [some ("nordvpn set " ++ cleanLabel k ++ " " ++ (if b then "true" else "false"))] ∧
    parse_settings (reflectSetting k b) = Except.ok [(k, b)] := by
  cases k <;> cases b <;>
    first
      | exact absurd rfl hk
      | exact ⟨rfl, rfl⟩

/-- Witness for C9 at a concrete input. -/
theorem C9_settings_roundtrip_witness :
    parse_settings (reflectSetting Settings.KILL_SWITCH true) =
      Except.ok [(Settings.KILL_SWITCH, true)] :=
  (C9_settings_roundtrip Settings.KILL_SWITCH true (by decide)).2
